import Mathlib

/-!
Verification of the `rte_helpers.c` foreign-function wrapper layer.

The repository consists of thin C wrappers around a DPDK-style native
library.  The Ethernet-configuration helpers (`_rte_eth_conf_new`,
`_rte_eth_conf_set_rx_mode`, ...) contain their own logic and are embedded
directly from the source.  The packet-buffer pool, the mbuf valid-data
window operations, the burst transmit path and the lock primitives live in
the wrapped native library, whose code is not part of the repository;
those operations are modelled from the specification, as marked on each
definition.

Machine integers are modelled as `Nat` with explicit `% 2^w` reductions at
the points where the C code narrows a value (bitfield assignment, argument
conversion).
-/

namespace RteHelpers

/-! ## Ethernet device configuration (embedded from `rte_helpers.c`) -/

/-- Receive-mode portion of `struct rte_eth_conf` (`rte_ethdev.h`):
`mq_mode` is an enum, `max_rx_pkt_len` a `uint32_t`, `split_hdr_size` a
`uint16_t`, and the remaining flags are one-bit-wide bitfields. -/
structure RxMode where
  mq_mode : Nat
  max_rx_pkt_len : Nat
  split_hdr_size : Nat
  header_split : Nat
  hw_ip_checksum : Nat
  hw_vlan_filter : Nat
  hw_vlan_strip : Nat
  hw_vlan_extend : Nat
  jumbo_frame : Nat
  hw_strip_crc : Nat
  enable_scatter : Nat
  enable_lro : Nat
deriving DecidableEq

/-- Transmit-mode portion of `struct rte_eth_conf`. -/
structure TxMode where
  mq_mode : Nat
  hw_vlan_reject_tagged : Nat
  hw_vlan_reject_untagged : Nat
  hw_vlan_insert_pvid : Nat
deriving DecidableEq

/-- RSS portion of `struct rte_eth_conf`; the key pointer is modelled as
the pointed-to byte list, with `[]` standing for the null pointer. -/
structure RssConf where
  rss_key : List Nat
  rss_key_len : Nat
  rss_hf : Nat
deriving DecidableEq

/-- The slice of `struct rte_eth_conf` touched by the wrapper. -/
structure EthConf where
  rxmode : RxMode
  txmode : TxMode
  rss_conf : RssConf
deriving DecidableEq

/-- `_rte_eth_conf_new`: `malloc` a `struct rte_eth_conf` and `memset` it
to zero.  The returned configuration has every field zero. -/
def _rte_eth_conf_new : EthConf :=
  { rxmode := { mq_mode := 0, max_rx_pkt_len := 0, split_hdr_size := 0,
                header_split := 0, hw_ip_checksum := 0, hw_vlan_filter := 0,
                hw_vlan_strip := 0, hw_vlan_extend := 0, jumbo_frame := 0,
                hw_strip_crc := 0, enable_scatter := 0, enable_lro := 0 },
    txmode := { mq_mode := 0, hw_vlan_reject_tagged := 0,
                hw_vlan_reject_untagged := 0, hw_vlan_insert_pvid := 0 },
    rss_conf := { rss_key := [], rss_key_len := 0, rss_hf := 0 } }

/-- `_rte_eth_conf_set_rx_mode` from `rte_helpers.c` lines 136-161.
Arguments carry the C types of the signature (`uint16_t split_hdr_size`,
`uint8_t` flags, `uint32_t max_rx_pkt_len`), hence the entry reductions;
each assignment to a one-bit bitfield of `rte_eth_rxmode` truncates the
stored value to its low bit (`% 2`).  In particular `header_split` is
assigned from `split_hdr_size` and `jumbo_frame` from `max_rx_pkt_len`. -/
def _rte_eth_conf_set_rx_mode (conf : EthConf)
    (mq_mode split_hdr_size hw_ip_checksum hw_vlan_filter hw_vlan_strip
     hw_vlan_extend max_rx_pkt_len hw_strip_crc enable_scatter
     enable_lro : Nat) : EthConf :=
  { conf with rxmode :=
    { mq_mode := mq_mode,
      max_rx_pkt_len := max_rx_pkt_len % 2 ^ 32,
      split_hdr_size := split_hdr_size % 2 ^ 16,
      header_split := split_hdr_size % 2 ^ 16 % 2,
      hw_ip_checksum := hw_ip_checksum % 2 ^ 8 % 2,
      hw_vlan_filter := hw_vlan_filter % 2 ^ 8 % 2,
      hw_vlan_strip := hw_vlan_strip % 2 ^ 8 % 2,
      hw_vlan_extend := hw_vlan_extend % 2 ^ 8 % 2,
      jumbo_frame := max_rx_pkt_len % 2 ^ 32 % 2,
      hw_strip_crc := hw_strip_crc % 2 ^ 8 % 2,
      enable_scatter := enable_scatter % 2 ^ 8 % 2,
      enable_lro := enable_lro % 2 ^ 8 % 2 } }

/-- Spec-side reading of `_rte_eth_conf_set_rx_mode` for the refinement
claim that the helper performs "no computation of its own beyond
forwarding": every field receives the corresponding argument value
unchanged (after the C argument-type conversion), with no bitfield
truncation of the helper's own. -/
def set_rx_mode_forward (conf : EthConf)
    (mq_mode split_hdr_size hw_ip_checksum hw_vlan_filter hw_vlan_strip
     hw_vlan_extend max_rx_pkt_len hw_strip_crc enable_scatter
     enable_lro : Nat) : EthConf :=
  { conf with rxmode :=
    { mq_mode := mq_mode,
      max_rx_pkt_len := max_rx_pkt_len % 2 ^ 32,
      split_hdr_size := split_hdr_size % 2 ^ 16,
      header_split := split_hdr_size % 2 ^ 16,
      hw_ip_checksum := hw_ip_checksum % 2 ^ 8,
      hw_vlan_filter := hw_vlan_filter % 2 ^ 8,
      hw_vlan_strip := hw_vlan_strip % 2 ^ 8,
      hw_vlan_extend := hw_vlan_extend % 2 ^ 8,
      jumbo_frame := max_rx_pkt_len % 2 ^ 32,
      hw_strip_crc := hw_strip_crc % 2 ^ 8,
      enable_scatter := enable_scatter % 2 ^ 8,
      enable_lro := enable_lro % 2 ^ 8 } }

/-! ## Packet buffers and the buffer pool (modelled from the spec) -/

/-- Modelled from the spec: a `PacketBuffer` (mbuf) owns a contiguous
region of `buf_len` bytes, fixed at creation, and a valid-data window
starting at byte offset `data_off` and spanning `data_len` bytes.  The
window-shifting operations move these bounds without copying. -/
structure PacketBuffer where
  buf_len : Nat
  data_off : Nat
  data_len : Nat
deriving DecidableEq

/-- Headroom: free space in the backing allocation before the window. -/
def headroom (m : PacketBuffer) : Nat := m.data_off

/-- Tailroom: free space in the backing allocation after the window. -/
def tailroom (m : PacketBuffer) : Nat := m.buf_len - (m.data_off + m.data_len)

/-- Modelled from the spec: `_rte_pktmbuf_prepend` forwards to the native
`rte_pktmbuf_prepend`, which grows the valid window at the front.  It
fails, returning the null sentinel (`none`) and leaving the buffer
untouched, when fewer than `len` bytes of headroom exist; on success it
returns the offset of the new window start. -/
def _rte_pktmbuf_prepend (m : PacketBuffer) (len : Nat) :
    Option Nat × PacketBuffer :=
  if headroom m < len then (none, m)
  else (some (m.data_off - len),
        { m with data_off := m.data_off - len, data_len := m.data_len + len })

/-- Modelled from the spec: `_rte_pktmbuf_append` forwards to the native
`rte_pktmbuf_append`, which grows the valid window at the back.  It fails,
returning the null sentinel (`none`) and leaving the buffer untouched,
when fewer than `len` bytes of tailroom exist; on success it returns the
offset of the appended area. -/
def _rte_pktmbuf_append (m : PacketBuffer) (len : Nat) :
    Option Nat × PacketBuffer :=
  if tailroom m < len then (none, m)
  else (some (m.data_off + m.data_len),
        { m with data_len := m.data_len + len })

/-- Modelled from the spec: `_rte_pktmbuf_trim` forwards to the native
`rte_pktmbuf_trim`, which shrinks the window tail by `len` bytes.  It
fails with the explicit error return `-1`, leaving the buffer untouched,
when `len` exceeds the current window length; on success it returns `0`. -/
def _rte_pktmbuf_trim (m : PacketBuffer) (len : Nat) : Int × PacketBuffer :=
  if m.data_len < len then (-1, m)
  else (0, { m with data_len := m.data_len - len })

/-- Modelled from the spec: a `Pool` owns a fixed set of packet buffers
and tracks the free ones.  Allocation never blocks: it is a total
function that reports exhaustion as an explicit empty result. -/
structure Pool where
  free : List PacketBuffer
deriving DecidableEq

/-- Modelled from the spec: `_rte_pktmbuf_alloc` forwards to the native
single-buffer allocator, which takes one buffer off the free list, or
returns the explicit `Empty` sentinel (`none`) when the pool is
exhausted.  It never blocks and never retries internally. -/
def _rte_pktmbuf_alloc (p : Pool) : Option (PacketBuffer × Pool) :=
  match p.free with
  | [] => none
  | b :: rest => some (b, { free := rest })

/-- Modelled from the spec: `_rte_pktmbuf_free` forwards to the native
free, which returns the buffer to its originating pool's free list. -/
def _rte_pktmbuf_free (b : PacketBuffer) (p : Pool) : Pool :=
  { free := b :: p.free }

/-- Modelled from the spec: `_rte_pktmbuf_alloc_bulk` forwards to the
native bulk allocator; per the spec contract
`allocate_bulk(n) -> sequence of PacketBuffer, possibly short`, it yields
the first `min n k` free buffers of a pool holding `k`, without blocking
and without over-allocating. -/
def _rte_pktmbuf_alloc_bulk (p : Pool) (count : Nat) :
    List PacketBuffer × Pool :=
  (p.free.take count, { free := p.free.drop count })

/-! ## Burst transmit (modelled from the spec) -/

/-- Modelled from the spec: the caller-visible state around a transmit
queue: the queue's backlog of enqueued buffers, its fixed capacity, and
the buffer pool (so that "no buffer was freed by the call" is visible as
the pool's free list being unchanged). -/
structure TxState where
  cap : Nat
  queue : List PacketBuffer
  pool : Pool
deriving DecidableEq

/-- Modelled from the spec: `_rte_eth_tx_burst` forwards to the native
burst transmit, which enqueues as many of the offered buffers as the
queue has room for, in order, and returns the count actually enqueued.
Unsent buffers are left entirely alone: not enqueued, not freed. -/
def _rte_eth_tx_burst (st : TxState) (tx_pkts : List PacketBuffer) :
    Nat × TxState :=
  let c := min tx_pkts.length (st.cap - st.queue.length)
  (c, { st with queue := st.queue ++ tx_pkts.take c })

/-! ## Recursive spinlock (modelled from the spec) -/

/-- Modelled from the spec: a recursive lock tracks the owning caller and
a depth count; `owner = none` is the state other threads observe as
unlocked. -/
structure RecLock where
  owner : Option Nat
  depth : Nat
deriving DecidableEq

/-- Modelled from the spec: `_rte_spinlock_recursive_lock` forwards to
the native recursive lock.  A caller that already owns the lock just
increments the depth; on a free lock the caller acquires it at depth 1;
against a different owner the call spins, which the sequential embedding
reports as `none`. -/
def _rte_spinlock_recursive_lock (t : Nat) (s : RecLock) : Option RecLock :=
  if s.owner = some t then some { s with depth := s.depth + 1 }
  else if s.owner = none then some { owner := some t, depth := 1 }
  else none

/-- Modelled from the spec: `_rte_spinlock_recursive_unlock` forwards to
the native recursive unlock, which decrements the depth and releases the
lock (clearing the owner, making it visible as unlocked) exactly when the
depth reaches zero. -/
def _rte_spinlock_recursive_unlock (s : RecLock) : RecLock :=
  if s.depth - 1 = 0 then { owner := none, depth := 0 }
  else { s with depth := s.depth - 1 }

/-! ## Hardware lock elision variants (modelled from the spec) -/

/-- Combined lock state for comparing the elided and non-elided APIs: one
plain spinlock (`sl`, the `locked` flag) and one recursive lock (`slr`). -/
structure LockState where
  sl : Bool
  slr : RecLock
deriving DecidableEq

/-- One call against the lock API, by a fixed caller.  The `Bool` carried
by the `_tm` -capable operations is the elision oracle: `true` means the
hardware transaction aborts (conflict, or no TM support) and the call
falls back to the spin path; `false` means the elision succeeds.  The
non-elided interpretation ignores it. -/
inductive LockOp where
  | slock : Bool → LockOp
  | sunlock : LockOp
  | strylock : Bool → LockOp
  | rlock : Bool → LockOp
  | runlock : LockOp
  | rtrylock : Bool → LockOp
deriving DecidableEq

/-- Non-elided interpretation of one lock call by caller `t`: the plain
`_rte_spinlock_lock` / `_rte_spinlock_trylock` / `_rte_spinlock_unlock`
and their recursive counterparts.  The result is the call's return value
(`true` for a successful acquisition, the constant `true` for the `void`
calls, `false` for a failed trylock); `none` means the call spins forever
in this sequential embedding. -/
def stepPlain (t : Nat) (op : LockOp) (s : LockState) :
    Option (Bool × LockState) :=
  match op with
  | .slock _ =>
      if s.sl then none else some (true, { s with sl := true })
  | .sunlock => some (true, { s with sl := false })
  | .strylock _ =>
      if s.sl then some (false, s) else some (true, { s with sl := true })
  | .rlock _ =>
      match _rte_spinlock_recursive_lock t s.slr with
      | none => none
      | some r => some (true, { s with slr := r })
  | .runlock => some (true, { s with slr := _rte_spinlock_recursive_unlock s.slr })
  | .rtrylock _ =>
      match _rte_spinlock_recursive_lock t s.slr with
      | none => some (false, s)
      | some r => some (true, { s with slr := r })

/-- Modelled from the spec: the `_tm` interpretation of one lock call
(`_rte_spinlock_lock_tm`, `_rte_spinlock_trylock_tm`,
`_rte_spinlock_unlock_tm` and the recursive counterparts).  Each
acquisition first attempts optimistic lock elision; on conflict (oracle
`true`) it falls back to the spin path transparently.  A successful
elision affects only latency, recorded here as the ghost counter `g`; the
functional state transition and return value are those of the spin
path. -/
def stepTM (t : Nat) (op : LockOp) (s : LockState) (g : Nat) :
    Option (Bool × LockState × Nat) :=
  match op with
  | .slock conflict =>
      if s.sl then none
      else if conflict then some (true, { s with sl := true }, g)
      else some (true, { s with sl := true }, g + 1)
  | .sunlock => some (true, { s with sl := false }, g)
  | .strylock conflict =>
      if s.sl then some (false, s, g)
      else if conflict then some (true, { s with sl := true }, g)
      else some (true, { s with sl := true }, g + 1)
  | .rlock conflict =>
      match _rte_spinlock_recursive_lock t s.slr with
      | none => none
      | some r =>
          if conflict then some (true, { s with slr := r }, g)
          else some (true, { s with slr := r }, g + 1)
  | .runlock => some (true, { s with slr := _rte_spinlock_recursive_unlock s.slr }, g)
  | .rtrylock conflict =>
      match _rte_spinlock_recursive_lock t s.slr with
      | none => some (false, s, g)
      | some r =>
          if conflict then some (true, { s with slr := r }, g)
          else some (true, { s with slr := r }, g + 1)

/-- Run a sequence of lock calls under the non-elided interpretation,
collecting the calls' return values. -/
def runPlain (t : Nat) : List LockOp → LockState → Option (List Bool × LockState)
  | [], s => some ([], s)
  | op :: ops, s =>
      match stepPlain t op s with
      | none => none
      | some (r, s2) =>
          match runPlain t ops s2 with
          | none => none
          | some (rs, s3) => some (r :: rs, s3)

/-- Run a sequence of lock calls under the elided interpretation,
threading the ghost elision counter. -/
def runTM (t : Nat) : List LockOp → LockState → Nat → Option (List Bool × LockState × Nat)
  | [], s, g => some ([], s, g)
  | op :: ops, s, g =>
      match stepTM t op s g with
      | none => none
      | some (r, s2, g2) =>
          match runTM t ops s2 g2 with
          | none => none
          | some (rs, s3, g3) => some (r :: rs, s3, g3)

/-! ## Theorems -/

/-- One elided lock call projects, forgetting the ghost elision counter,
to the corresponding non-elided call: same return value, same lock
state. -/
theorem stepTM_proj (t : Nat) (op : LockOp) (s : LockState) (g : Nat) :
    (stepTM t op s g).map (fun r => (r.1, r.2.1)) = stepPlain t op s := by
  cases op with
  | slock c => by_cases h : s.sl <;> cases c <;> simp [stepTM, stepPlain, h]
  | sunlock => simp [stepTM, stepPlain]
  | strylock c => by_cases h : s.sl <;> cases c <;> simp [stepTM, stepPlain, h]
  | rlock c =>
      cases h : _rte_spinlock_recursive_lock t s.slr <;> cases c <;>
        simp [stepTM, stepPlain, h]
  | runlock => simp [stepTM, stepPlain]
  | rtrylock c =>
      cases h : _rte_spinlock_recursive_lock t s.slr <;> cases c <;>
        simp [stepTM, stepPlain, h]

/-- Claim C1: on a pool holding `k` free buffers, a bulk allocation
request for `n > k` buffers yields exactly the `k` available buffers (a
possibly short sequence), never over-allocating: the result is the whole
free list, has length `k`, and drains the pool. -/
theorem c1_alloc_bulk_short (p : Pool) (n : Nat) (h : p.free.length < n) :
    (_rte_pktmbuf_alloc_bulk p n).fst = p.free ∧
    (_rte_pktmbuf_alloc_bulk p n).fst.length = p.free.length ∧
    (_rte_pktmbuf_alloc_bulk p n).snd.free = [] := by
  have hle : p.free.length ≤ n := Nat.le_of_lt h
  refine ⟨List.take_of_length_le hle, ?_, ?_⟩
  · simp [_rte_pktmbuf_alloc_bulk, List.length_take, Nat.min_eq_right hle]
  · simpa [_rte_pktmbuf_alloc_bulk] using List.drop_eq_nil_of_le hle

/-- Witness for C1 at a pool of two buffers and a request for three. -/
theorem c1_witness :
    (Pool.mk [⟨2048, 128, 0⟩, ⟨2048, 128, 64⟩]).free.length < 3 ∧
    (_rte_pktmbuf_alloc_bulk (Pool.mk [⟨2048, 128, 0⟩, ⟨2048, 128, 64⟩]) 3).fst.length =
      (Pool.mk [⟨2048, 128, 0⟩, ⟨2048, 128, 64⟩]).free.length :=
  ⟨by decide, (c1_alloc_bulk_short (Pool.mk [⟨2048, 128, 0⟩, ⟨2048, 128, 64⟩]) 3 (by decide)).2.1⟩

/-- Claim C3: whenever `append b n` succeeds (returns a data pointer),
trimming the same length `n` immediately afterwards returns `0` and
restores the buffer — in particular its data offset and data length — to
exactly the pre-append state. -/
theorem c3_append_then_trim (b : PacketBuffer) (n : Nat)
    (h : (_rte_pktmbuf_append b n).fst.isSome) :
    (_rte_pktmbuf_trim (_rte_pktmbuf_append b n).snd n).fst = 0 ∧
    (_rte_pktmbuf_trim (_rte_pktmbuf_append b n).snd n).snd = b := by
  by_cases hc : tailroom b < n
  · simp [_rte_pktmbuf_append, hc] at h
  · simp [_rte_pktmbuf_append, _rte_pktmbuf_trim, hc]

/-- Witness for C3 on a buffer with five bytes of tailroom. -/
theorem c3_witness :
    (_rte_pktmbuf_append ⟨10, 2, 3⟩ 5).fst.isSome ∧
    (_rte_pktmbuf_trim (_rte_pktmbuf_append ⟨10, 2, 3⟩ 5).snd 5).snd = ⟨10, 2, 3⟩ :=
  ⟨by decide, (c3_append_then_trim ⟨10, 2, 3⟩ 5 (by decide)).2⟩

/-- Claim C4: `trim b n` fails exactly when `n` exceeds the current
valid-data length; the failure is the explicit error return `-1` (the
operation is a total function, never a process-terminating failure), and
on failure the buffer is left unchanged. -/
theorem c4_trim_error (b : PacketBuffer) (n : Nat) :
    ((_rte_pktmbuf_trim b n).fst = 0 ∨ (_rte_pktmbuf_trim b n).fst = -1) ∧
    ((_rte_pktmbuf_trim b n).fst = -1 ↔ b.data_len < n) ∧
    (b.data_len < n → (_rte_pktmbuf_trim b n).snd = b) := by
  by_cases hc : b.data_len < n <;> simp [_rte_pktmbuf_trim, hc]

/-- Witness for C4: trimming five bytes from a three-byte window fails
with `-1` and leaves the buffer unchanged. -/
theorem c4_witness :
    (⟨10, 2, 3⟩ : PacketBuffer).data_len < 5 ∧
    (_rte_pktmbuf_trim ⟨10, 2, 3⟩ 5).fst = -1 ∧
    (_rte_pktmbuf_trim ⟨10, 2, 3⟩ 5).snd = ⟨10, 2, 3⟩ :=
  ⟨by decide, (c4_trim_error ⟨10, 2, 3⟩ 5).2.1.mpr (by decide),
    (c4_trim_error ⟨10, 2, 3⟩ 5).2.2 (by decide)⟩

/-- Claim C5: `prepend b n` returns the null sentinel exactly when the
backing allocation has less than `n` bytes of headroom, `append b n`
returns it exactly when less than `n` bytes of tailroom exist, and in
either failure case the valid-data window is not adjusted. -/
theorem c5_prepend_append_room (b : PacketBuffer) (n : Nat) :
    ((_rte_pktmbuf_prepend b n).fst = none ↔ headroom b < n) ∧
    (headroom b < n → (_rte_pktmbuf_prepend b n).snd = b) ∧
    ((_rte_pktmbuf_append b n).fst = none ↔ tailroom b < n) ∧
    (tailroom b < n → (_rte_pktmbuf_append b n).snd = b) := by
  by_cases h1 : headroom b < n <;> by_cases h2 : tailroom b < n <;>
    simp [_rte_pktmbuf_prepend, _rte_pktmbuf_append, h1, h2]

/-- Witness for C5: six bytes fit in neither the two-byte headroom nor
the five-byte tailroom, and both failures leave the buffer unchanged. -/
theorem c5_witness :
    headroom ⟨10, 2, 3⟩ < 6 ∧ tailroom ⟨10, 2, 3⟩ < 6 ∧
    (_rte_pktmbuf_prepend ⟨10, 2, 3⟩ 6).snd = ⟨10, 2, 3⟩ ∧
    (_rte_pktmbuf_append ⟨10, 2, 3⟩ 6).snd = ⟨10, 2, 3⟩ :=
  ⟨by decide, by decide,
    (c5_prepend_append_room ⟨10, 2, 3⟩ 6).2.1 (by decide),
    (c5_prepend_append_room ⟨10, 2, 3⟩ 6).2.2.2 (by decide)⟩

/-- Claim C6: on any pool of four buffers, four successive allocations
succeed, the fifth reports exhaustion as the explicit empty result
(never blocking), and after freeing one buffer the next allocation
succeeds again. -/
theorem c6_pool_exhaustion (p : Pool) (h : p.free.length = 4) :
    ∃ b1 p1 b2 p2 b3 p3 b4 p4,
      _rte_pktmbuf_alloc p = some (b1, p1) ∧
      _rte_pktmbuf_alloc p1 = some (b2, p2) ∧
      _rte_pktmbuf_alloc p2 = some (b3, p3) ∧
      _rte_pktmbuf_alloc p3 = some (b4, p4) ∧
      _rte_pktmbuf_alloc p4 = none ∧
      _rte_pktmbuf_alloc (_rte_pktmbuf_free b1 p4) = some (b1, ⟨[]⟩) := by
  obtain ⟨free⟩ := p
  rcases free with _ | ⟨a, _ | ⟨b, _ | ⟨c, _ | ⟨d, _ | ⟨e, tl⟩⟩⟩⟩⟩ <;>
    simp only [List.length] at h <;> try omega
  exact ⟨a, ⟨[b, c, d]⟩, b, ⟨[c, d]⟩, c, ⟨[d]⟩, d, ⟨[]⟩,
    rfl, rfl, rfl, rfl, rfl, rfl⟩

/-- Witness for C6 at a concrete pool of four buffers. -/
theorem c6_witness :
    (Pool.mk [⟨2048, 128, 0⟩, ⟨2048, 128, 1⟩, ⟨2048, 128, 2⟩, ⟨2048, 128, 3⟩]).free.length = 4 ∧
    ∃ b1 p1 b2 p2 b3 p3 b4 p4,
      _rte_pktmbuf_alloc (Pool.mk [⟨2048, 128, 0⟩, ⟨2048, 128, 1⟩, ⟨2048, 128, 2⟩, ⟨2048, 128, 3⟩]) = some (b1, p1) ∧
      _rte_pktmbuf_alloc p1 = some (b2, p2) ∧
      _rte_pktmbuf_alloc p2 = some (b3, p3) ∧
      _rte_pktmbuf_alloc p3 = some (b4, p4) ∧
      _rte_pktmbuf_alloc p4 = none ∧
      _rte_pktmbuf_alloc (_rte_pktmbuf_free b1 p4) = some (b1, ⟨[]⟩) :=
  ⟨by decide,
    c6_pool_exhaustion (Pool.mk [⟨2048, 128, 0⟩, ⟨2048, 128, 1⟩, ⟨2048, 128, 2⟩, ⟨2048, 128, 3⟩]) (by decide)⟩

/-- Claim C7: for a recursive lock owned by caller `t` at positive depth,
a further `lock()` by `t` increments the depth, `unlock()` decrements it,
and the owner field is cleared — the release other threads can observe —
exactly when the depth reaches zero; concretely, from a free lock the
sequence lock-lock-unlock leaves the lock held by `t` at depth 1, and
only the matching second unlock releases it. -/
theorem c7_recursive_lock_depth (t : Nat) (s : RecLock)
    (ho : s.owner = some t) (hd : 1 ≤ s.depth) :
    _rte_spinlock_recursive_lock t s = some { s with depth := s.depth + 1 } ∧
    (_rte_spinlock_recursive_unlock s).depth = s.depth - 1 ∧
    ((_rte_spinlock_recursive_unlock s).owner = none ↔ s.depth = 1) ∧
    _rte_spinlock_recursive_lock t ⟨none, 0⟩ = some ⟨some t, 1⟩ ∧
    _rte_spinlock_recursive_lock t ⟨some t, 1⟩ = some ⟨some t, 2⟩ ∧
    _rte_spinlock_recursive_unlock ⟨some t, 2⟩ = ⟨some t, 1⟩ ∧
    _rte_spinlock_recursive_unlock ⟨some t, 1⟩ = ⟨none, 0⟩ := by
  refine ⟨by simp [_rte_spinlock_recursive_lock, ho], ?_, ?_, ?_, ?_, ?_, ?_⟩
  · by_cases hz : s.depth - 1 = 0 <;> simp [_rte_spinlock_recursive_unlock, hz]
  · by_cases hz : s.depth - 1 = 0 <;> simp [_rte_spinlock_recursive_unlock, hz, ho] <;> omega
  · simp [_rte_spinlock_recursive_lock]
  · simp [_rte_spinlock_recursive_lock]
  · simp [_rte_spinlock_recursive_unlock]
  · simp [_rte_spinlock_recursive_unlock]

/-- Witness for C7: caller 0 holding the lock at depth 2. -/
theorem c7_witness :
    (⟨some 0, 2⟩ : RecLock).owner = some 0 ∧ 1 ≤ (⟨some 0, 2⟩ : RecLock).depth ∧
    _rte_spinlock_recursive_lock 0 ⟨some 0, 2⟩ = some ⟨some 0, 3⟩ ∧
    ((_rte_spinlock_recursive_unlock ⟨some 0, 2⟩).owner = none ↔ (2 : Nat) = 1) :=
  ⟨rfl, by decide, (c7_recursive_lock_depth 0 ⟨some 0, 2⟩ rfl (by decide)).1,
    (c7_recursive_lock_depth 0 ⟨some 0, 2⟩ rfl (by decide)).2.2.1⟩

/-- Claim C9: `send_burst` returns the count `c ≤ n` of buffers actually
enqueued (in order), the pool is untouched — no buffer is freed by the
call — and the unsent suffix recombines with the sent prefix to the
original batch, so unsent buffers remain exactly as the caller passed
them. -/
theorem c9_tx_burst_ownership (st : TxState) (pkts : List PacketBuffer) :
    (_rte_eth_tx_burst st pkts).fst ≤ pkts.length ∧
    (_rte_eth_tx_burst st pkts).snd.pool = st.pool ∧
    (_rte_eth_tx_burst st pkts).snd.queue =
      st.queue ++ pkts.take (_rte_eth_tx_burst st pkts).fst ∧
    pkts.take (_rte_eth_tx_burst st pkts).fst ++
      pkts.drop (_rte_eth_tx_burst st pkts).fst = pkts := by
  refine ⟨Nat.min_le_left _ _, rfl, rfl, List.take_append_drop _ _⟩

/-- Claim C10: the single-bit fields written by
`_rte_eth_conf_set_rx_mode` receive the low bit of their source
arguments: `header_split = split_hdr_size mod 2` and
`jumbo_frame = max_rx_pkt_len mod 2`; hence an even (in particular even
nonzero) `max_rx_pkt_len` leaves jumbo-frame receipt disabled. -/
theorem c10_rx_mode_truncation (conf : EthConf)
    (mq shs ipck vf vs ve mrpl crc sc lro : Nat) :
    (_rte_eth_conf_set_rx_mode conf mq shs ipck vf vs ve mrpl crc sc lro).rxmode.header_split = shs % 2 ∧
    (_rte_eth_conf_set_rx_mode conf mq shs ipck vf vs ve mrpl crc sc lro).rxmode.jumbo_frame = mrpl % 2 ∧
    (mrpl % 2 = 0 →
      (_rte_eth_conf_set_rx_mode conf mq shs ipck vf vs ve mrpl crc sc lro).rxmode.jumbo_frame = 0) := by
  have h1 : shs % 2 ^ 16 % 2 = shs % 2 := Nat.mod_mod_of_dvd _ (by norm_num)
  have h2 : mrpl % 2 ^ 32 % 2 = mrpl % 2 := Nat.mod_mod_of_dvd _ (by norm_num)
  exact ⟨h1, h2, fun hz => h2.trans hz⟩

/-- Witness for C10: `max_rx_pkt_len = 1500` is even and nonzero, and
jumbo-frame receipt stays disabled. -/
theorem c10_witness :
    (1500 : Nat) % 2 = 0 ∧
    (_rte_eth_conf_set_rx_mode _rte_eth_conf_new 0 0 0 0 0 0 1500 0 0 0).rxmode.jumbo_frame = 0 :=
  ⟨by decide,
    (c10_rx_mode_truncation _rte_eth_conf_new 0 0 0 0 0 0 1500 0 0 0).2.2 (by decide)⟩

/-- Counterexample to claim C2: `_rte_eth_conf_set_rx_mode` does not
merely forward its arguments.  With `split_hdr_size = 2` the stored
`header_split` flag is `0`, not the forwarded `2`: the helper performs a
computation of its own (one-bit truncation), and its result differs from
the pure-forwarding reading of the spec. -/
theorem c2_counterexample :
    _rte_eth_conf_set_rx_mode _rte_eth_conf_new 0 2 0 0 0 0 0 0 0 0 ≠
      set_rx_mode_forward _rte_eth_conf_new 0 2 0 0 0 0 0 0 0 0 ∧
    (_rte_eth_conf_set_rx_mode _rte_eth_conf_new 0 2 0 0 0 0 0 0 0 0).rxmode.header_split = 0 ∧
    (set_rx_mode_forward _rte_eth_conf_new 0 2 0 0 0 0 0 0 0 0).rxmode.header_split = 2 := by
  refine ⟨?_, by decide, by decide⟩
  intro h
  have := congrArg (fun c => c.rxmode.header_split) h
  simp [_rte_eth_conf_set_rx_mode, set_rx_mode_forward] at this

/-- Claim C2 as amended: the configuration helpers are not forwarding
calls but contain their own logic — `_rte_eth_conf_new` itself builds the
all-zero configuration, and `_rte_eth_conf_set_rx_mode` agrees with pure
argument forwarding on the wide fields (`mq_mode`, `max_rx_pkt_len`,
`split_hdr_size`) and on the untouched `txmode`/`rss_conf` sections,
while each one-bit flag field stores only the low bit of the value a pure
forwarder would store. -/
theorem c2_amended_conf_helpers (conf : EthConf)
    (mq shs ipck vf vs ve mrpl crc sc lro : Nat) :
    _rte_eth_conf_new =
      EthConf.mk ⟨0, 0, 0, 0, 0, 0, 0, 0, 0, 0, 0, 0⟩ ⟨0, 0, 0, 0⟩ ⟨[], 0, 0⟩ ∧
    (_rte_eth_conf_set_rx_mode conf mq shs ipck vf vs ve mrpl crc sc lro).rxmode.mq_mode =
      (set_rx_mode_forward conf mq shs ipck vf vs ve mrpl crc sc lro).rxmode.mq_mode ∧
    (_rte_eth_conf_set_rx_mode conf mq shs ipck vf vs ve mrpl crc sc lro).rxmode.max_rx_pkt_len =
      (set_rx_mode_forward conf mq shs ipck vf vs ve mrpl crc sc lro).rxmode.max_rx_pkt_len ∧
    (_rte_eth_conf_set_rx_mode conf mq shs ipck vf vs ve mrpl crc sc lro).rxmode.split_hdr_size =
      (set_rx_mode_forward conf mq shs ipck vf vs ve mrpl crc sc lro).rxmode.split_hdr_size ∧
    (_rte_eth_conf_set_rx_mode conf mq shs ipck vf vs ve mrpl crc sc lro).rxmode.header_split =
      (set_rx_mode_forward conf mq shs ipck vf vs ve mrpl crc sc lro).rxmode.header_split % 2 ∧
    (_rte_eth_conf_set_rx_mode conf mq shs ipck vf vs ve mrpl crc sc lro).rxmode.hw_ip_checksum =
      (set_rx_mode_forward conf mq shs ipck vf vs ve mrpl crc sc lro).rxmode.hw_ip_checksum % 2 ∧
    (_rte_eth_conf_set_rx_mode conf mq shs ipck vf vs ve mrpl crc sc lro).rxmode.hw_vlan_filter =
      (set_rx_mode_forward conf mq shs ipck vf vs ve mrpl crc sc lro).rxmode.hw_vlan_filter % 2 ∧
    (_rte_eth_conf_set_rx_mode conf mq shs ipck vf vs ve mrpl crc sc lro).rxmode.hw_vlan_strip =
      (set_rx_mode_forward conf mq shs ipck vf vs ve mrpl crc sc lro).rxmode.hw_vlan_strip % 2 ∧
    (_rte_eth_conf_set_rx_mode conf mq shs ipck vf vs ve mrpl crc sc lro).rxmode.hw_vlan_extend =
      (set_rx_mode_forward conf mq shs ipck vf vs ve mrpl crc sc lro).rxmode.hw_vlan_extend % 2 ∧
    (_rte_eth_conf_set_rx_mode conf mq shs ipck vf vs ve mrpl crc sc lro).rxmode.jumbo_frame =
      (set_rx_mode_forward conf mq shs ipck vf vs ve mrpl crc sc lro).rxmode.jumbo_frame % 2 ∧
    (_rte_eth_conf_set_rx_mode conf mq shs ipck vf vs ve mrpl crc sc lro).rxmode.hw_strip_crc =
      (set_rx_mode_forward conf mq shs ipck vf vs ve mrpl crc sc lro).rxmode.hw_strip_crc % 2 ∧
    (_rte_eth_conf_set_rx_mode conf mq shs ipck vf vs ve mrpl crc sc lro).rxmode.enable_scatter =
      (set_rx_mode_forward conf mq shs ipck vf vs ve mrpl crc sc lro).rxmode.enable_scatter % 2 ∧
    (_rte_eth_conf_set_rx_mode conf mq shs ipck vf vs ve mrpl crc sc lro).rxmode.enable_lro =
      (set_rx_mode_forward conf mq shs ipck vf vs ve mrpl crc sc lro).rxmode.enable_lro % 2 ∧
    (_rte_eth_conf_set_rx_mode conf mq shs ipck vf vs ve mrpl crc sc lro).txmode = conf.txmode ∧
    (_rte_eth_conf_set_rx_mode conf mq shs ipck vf vs ve mrpl crc sc lro).rss_conf = conf.rss_conf :=
  ⟨rfl, rfl, rfl, rfl, rfl, rfl, rfl, rfl, rfl, rfl, rfl, rfl, rfl, rfl, rfl⟩

/-- Claim C8: for every lock, every caller and every sequence of
lock/trylock/unlock calls, the hardware transactional-memory variants
(under every elision/conflict oracle and every starting value of the
ghost elision counter) are functionally identical to the non-elided
operations: the sequence of call results and the final lock state —
both the plain spinlock and the recursive lock — coincide, the elision
counter being the only (latency-side) difference. -/
theorem c8_tm_functionally_identical (t : Nat) (ops : List LockOp)
    (s : LockState) (g : Nat) :
    (runTM t ops s g).map (fun r => (r.1, r.2.1)) = runPlain t ops s := by
  induction ops generalizing s g with
  | nil => rfl
  | cons op ops ih =>
      simp only [runTM, runPlain]
      cases hstep : stepTM t op s g with
      | none =>
          have hp : stepPlain t op s = none := by
            have h0 := stepTM_proj t op s g
            rw [hstep] at h0
            exact h0.symm
          simp [hp]
      | some v =>
          obtain ⟨r, s2, g2⟩ := v
          have hp : stepPlain t op s = some (r, s2) := by
            have h0 := stepTM_proj t op s g
            rw [hstep] at h0
            exact h0.symm
          have hr := ih s2 g2
          simp only [hp]
          cases hrun : runTM t ops s2 g2 with
          | none =>
              rw [hrun] at hr
              have hr2 : runPlain t ops s2 = none := hr.symm
              simp [hr2]
          | some w =>
              obtain ⟨rs, s3, g3⟩ := w
              rw [hrun] at hr
              have hr2 : runPlain t ops s2 = some (rs, s3) := hr.symm
              simp [hr2]

end RteHelpers
